import Mathlib

/-!
Shallow embedding of the points/XP ledger and gamification engine of the
family chore/reward tracker (`src/app.py`).

Modelling conventions:
- Python floats (points, xp, costs, payouts) are modelled as `ℚ`.
- Calendar dates are modelled as day numbers `ℤ`; the source stores dates as
  canonical `YYYY-MM-DD` strings, whose equality corresponds to day equality
  and whose "yesterday" is day `- 1`.  A blank / non-date `Last_Active` cell
  is modelled as `none`.
- History timestamps (`YYYY-MM-DD HH:MM` strings in the source) are modelled
  as a parsed calendar day plus an hour; rows whose timestamp fails to parse
  carry `day = none` and are skipped, exactly as the source's
  `try/except: continue` does.
- The `Points_Change` history column (a string in the sheet) is modelled as
  `Option ℚ`: `none` stands for a blank or unparseable cell.
-/

/-- One row of the History sheet: `[Date, User, Action, Item, Points_Change]`
as appended by `log_history` in `src/app.py`.  `day`/`hour` are the parsed
timestamp (`none` when unparseable), `delta` the parsed points change. -/
structure HistoryRow where
  day : Option ℤ
  hour : ℕ
  user : String
  action : String
  item : String
  delta : Option ℚ
deriving DecidableEq

/-- The per-user columns of the Users sheet read and written by
`update_user_stats` in `src/app.py`: Points (col 4), Streak (col 5),
Last_Active (col 6), XP (col 8). -/
structure UserRow where
  points : ℚ
  streak : ℤ
  lastActive : Option ℤ
  xp : ℚ
deriving DecidableEq

/-- Result of one economy operation: the rewritten user row, the rewritten
`Family_Goal_Current` setting, and the History row appended by
`log_history`. -/
structure OpResult where
  user : UserRow
  goal : ℚ
  entry : HistoryRow
deriving DecidableEq

/-- `update_user_stats(user, points_change, xp_change)` from `src/app.py`
(lines 138-168), evaluated sequentially at calendar day `today`.
All balance columns are read, the streak/last-active logic runs only when
`xp_change > 0`, and `Family_Goal_Current` is incremented only when
`points_change > 0`. -/
def update_user_stats (u : UserRow) (goal points_change xp_change : ℚ)
    (today : ℤ) : UserRow × ℚ :=
  let new_points := u.points + points_change
  let new_xp := u.xp + xp_change
  let new_streak :=
    if 0 < xp_change then
      if u.lastActive = some today then u.streak
      else if u.lastActive = some (today - 1) then u.streak + 1
      else 1
    else u.streak
  let new_last := if 0 < xp_change then some today else u.lastActive
  let new_goal := if 0 < points_change then goal + points_change else goal
  (⟨new_points, new_streak, new_last, new_xp⟩, new_goal)

/-- The streak multiplier computed inline in the quest-completion handler of
`src/app.py` (lines 339-341): `1.5` for streak `≥ 7`, `1.2` for streak `≥ 3`,
else `1.0`. -/
def multiplier (streak : ℤ) : ℚ :=
  if 7 ≤ streak then 3 / 2
  else if 3 ≤ streak then 6 / 5
  else 1

/-- The quest-completion handler of `src/app.py` (lines 338-353):
`final_points = base_points * multiplier`, then
`update_user_stats(user, final_points, final_points)` and
`log_history(user, "Quest Complete", title, "+final_points")`. -/
def complete_task (u : UserRow) (goal basePoints : ℚ)
    (taskTitle uname : String) (today : ℤ) (hour : ℕ) : OpResult :=
  let final := basePoints * multiplier u.streak
  let s := update_user_stats u goal final final today
  ⟨s.1, s.2, ⟨some today, hour, uname, "Quest Complete", taskTitle, some final⟩⟩

/-- The fixed prize table of the mystery box (`src/app.py` line 378). -/
def mystery_box_prizes : List ℚ := [5, 10, 10, 15, 20, 25, 50]

/-- The mystery-box handler of `src/app.py` (lines 376-383): the button is
disabled when `points < 15` (modelled as `none`); otherwise
`update_user_stats(user, prize - 15, 0)` and
`log_history(user, "Mystery Box", "Won prize", "prize - 15")`. -/
def open_mystery_box (u : UserRow) (goal prize : ℚ) (uname : String)
    (today : ℤ) (hour : ℕ) : Option OpResult :=
  if u.points < 15 then none
  else
    let s := update_user_stats u goal (prize - 15) 0 today
    some ⟨s.1, s.2,
      ⟨some today, hour, uname, "Mystery Box", "Won " ++ toString prize,
       some (prize - 15)⟩⟩

/-- The reward-redemption handler of `src/app.py` (lines 385-398): the Buy
button is disabled when `points < cost` (modelled as `none`); otherwise
`update_user_stats(user, -cost, 0)` and
`log_history(user, "Reward", title, "-cost")`. -/
def redeem_reward (u : UserRow) (goal cost : ℚ) (rewardTitle uname : String)
    (today : ℤ) (hour : ℕ) : Option OpResult :=
  if u.points < cost then none
  else
    let s := update_user_stats u goal (-cost) 0 today
    some ⟨s.1, s.2,
      ⟨some today, hour, uname, "Reward", rewardTitle, some (-cost)⟩⟩

/-- A History row matches the dedup scan of `check_if_task_done_today`
(`src/app.py` lines 196-209) when its User and Item equal the given user and
task title and its timestamp parses to today's date.  The Action column is
not consulted by the source. -/
def matches_today (taskTitle usr : String) (today : ℤ) (r : HistoryRow) :
    Bool :=
  decide (r.user = usr ∧ r.item = taskTitle ∧ r.day = some today)

/-- `check_if_task_done_today(task_title, user, history_data, frequency)`
from `src/app.py` (lines 187-217), with "now" made explicit as
`(today, current_hour)`.  Returns `true` when the task is hidden.
The source computes `count_today`, `done_am`, `done_pm` in a single loop
over the history; they are expressed here as a count and two scans with the
identical row condition. -/
def check_if_task_done_today (taskTitle usr : String)
    (history : List HistoryRow) (frequency : String) (today : ℤ)
    (current_hour : ℕ) : Bool :=
  let count_today := history.countP (matches_today taskTitle usr today)
  let done_am := history.any fun r =>
    matches_today taskTitle usr today r && decide (r.hour < 16)
  let done_pm := history.any fun r =>
    matches_today taskTitle usr today r && decide (16 ≤ r.hour)
  if frequency = "Daily" then decide (0 < count_today)
  else if frequency = "Twice Daily" then
    if 16 ≤ current_hour then done_pm else done_am
  else false

/-- The level-to-title dictionary of `calculate_level` (`src/app.py`
lines 94-98), rendered as a total function: `titles.get(level, fallback)`. -/
def title_for_level (lvl : ℕ) : String :=
  match lvl with
  | 1 => "Rookie 🌱"
  | 2 => "Scout 🔭"
  | 3 => "Adventurer 🎒"
  | 4 => "Warrior ⚔️"
  | 5 => "Knight 🛡️"
  | 6 => "Ninja 🥷"
  | 7 => "Master 🧘"
  | 8 => "Champion 🏆"
  | 9 => "Legend 👑"
  | 10 => "Mythic 🐉"
  | _ => "Cosmic Being 🌌"

/-- `calculate_level(xp)` from `src/app.py` (lines 91-100).  For `xp > 0` the
source computes `int((xp ** 0.5) / 2) + 1`, i.e. the floor of half the square
root; on nonnegative rationals this equals `Nat.sqrt ⌊xp⌋₊ / 2 + 1` (proved
below against the real-valued formula). -/
def calculate_level (xp : ℚ) : ℕ × String :=
  if xp ≤ 0 then (1, "Rookie 🌱")
  else
    let lvl := Nat.sqrt ⌊xp⌋₊ / 2 + 1
    (lvl, title_for_level lvl)

/-- Whether a History row contributes to the XP total of user `u` in
`recalculate_all_xp` (`src/app.py` lines 106-113): the row's User equals `u`,
the user cell is nonempty (Python truthiness), the Points_Change cell parses,
and the parsed value is strictly positive. -/
def contributes_xp (u : String) (r : HistoryRow) : Bool :=
  decide (r.user = u ∧ u ≠ "") &&
    (match r.delta with
     | some v => decide (0 < v)
     | none => false)

/-- The running total `user_xp_totals[u]` accumulated by the history loop of
`recalculate_all_xp` (`src/app.py` lines 105-113). -/
def user_xp_total (history : List HistoryRow) (u : String) : ℚ :=
  history.foldl (fun acc r => if contributes_xp u r then acc + r.delta.getD 0 else acc) 0

/-- Whether `u` ends up as a key of `user_xp_totals`: keys are created only
when a strictly positive value is added (`src/app.py` line 112). -/
def user_has_positive (history : List HistoryRow) (u : String) : Bool :=
  history.any (contributes_xp u)

/-- `recalculate_all_xp` from `src/app.py` (lines 102-136), acting on the
Users sheet modelled as `(name, xp)` pairs: each user whose name is a key of
`user_xp_totals` gets that total written to the XP column; every other row is
left untouched. -/
def recalculate_all_xp (history : List HistoryRow)
    (users : List (String × ℚ)) : List (String × ℚ) :=
  users.map fun p =>
    if user_has_positive history p.1 then (p.1, user_xp_total history p.1)
    else p

/-- Modelled from the spec (§4.7), for comparison with the source: for every
user, overwrite xp with `max 0 (Σ pointsDelta over that user's QuestComplete
rows)`, with MysteryBox and Reward deltas excluded. -/
def recalculate_all_xp_spec (history : List HistoryRow)
    (users : List (String × ℚ)) : List (String × ℚ) :=
  users.map fun p =>
    (p.1, max 0 (((history.filter fun r =>
      decide (r.user = p.1 ∧ r.action = "Quest Complete")).map
        fun r => r.delta.getD 0).sum))

/-- The ordered table of named tier titles of `calculate_level`
(`src/app.py` lines 94-98), in level order 1..10. -/
def titles_table : List String :=
  ["Rookie 🌱", "Scout 🔭", "Adventurer 🎒", "Warrior ⚔️", "Knight 🛡️",
   "Ninja 🥷", "Master 🧘", "Champion 🏆", "Legend 👑", "Mythic 🐉"]

example : multiplier 5 = 6 / 5 := by norm_num [multiplier]
example : (complete_task ⟨0, 5, none, 0⟩ 0 10 "T" "A" 3 9).user.points = 12 := by
  norm_num [complete_task, update_user_stats, multiplier]
example : Nat.sqrt 324 = 18 := by
  rw [show (324 : ℕ) = 18 * 18 by norm_num, Nat.sqrt_eq]
example : (calculate_level 324).1 = 10 := by
  norm_num [calculate_level]
example : (calculate_level 324).2 = "Mythic 🐉" := by
  norm_num [calculate_level]
  rfl
example : (calculate_level 400).2 = "Cosmic Being 🌌" := by
  norm_num [calculate_level]
  rfl
example (n : ℕ) : title_for_level (n + 11) = "Cosmic Being 🌌" := rfl

/-- The multiplier is always strictly positive. -/
lemma multiplier_pos (s : ℤ) : 0 < multiplier s := by
  unfold multiplier
  split
  · norm_num
  · split <;> norm_num

/-- Claim C1, counterexample: with 20 points and drawn prize 50 (a member of
the fixed prize set), opening the mystery box moves `Family_Goal_Current`
from 0 to 35, so the family-goal aggregate is not left unchanged for every
possible drawn prize. -/
theorem open_mystery_box_goal_counterexample :
    (15 : ℚ) ≤ (⟨20, 0, none, 0⟩ : UserRow).points ∧
    (50 : ℚ) ∈ mystery_box_prizes ∧
    (open_mystery_box ⟨20, 0, none, 0⟩ 0 50 "A" 0 12).map OpResult.goal
      = some 35 ∧
    (35 : ℚ) ≠ 0 := by
  refine ⟨by norm_num, by norm_num [mystery_box_prizes], ?_, by norm_num⟩
  norm_num [open_mystery_box, update_user_stats]

/-- Claim C1, amended: for every user with `points ≥ 15` and every prize in
the fixed set, OpenMysteryBox changes the user's points by exactly
`prize - 15` and leaves xp unchanged; `Family_Goal_Current` is unchanged when
`prize ≤ 15` and grows by `prize - 15` when `prize > 15`. -/
theorem open_mystery_box_effect (u : UserRow) (g prize : ℚ) (uname : String)
    (d : ℤ) (hr : ℕ) (hpts : 15 ≤ u.points)
    (hprize : prize ∈ mystery_box_prizes) :
    (open_mystery_box u g prize uname d hr).map
        (fun r => (r.user.points, r.user.xp, r.goal))
      = some (u.points + (prize - 15), u.xp,
          if 15 < prize then g + (prize - 15) else g) := by
  rw [open_mystery_box, if_neg (not_lt.mpr hpts)]
  have hgoal : (0 < prize - 15) = (15 < prize) := by rw [eq_iff_iff, sub_pos]
  simp [update_user_stats, hgoal]

/-- Witness for `open_mystery_box_effect` at points 40, prize 20. -/
theorem open_mystery_box_effect_witness :
    (15 : ℚ) ≤ (⟨40, 2, some 9, 7⟩ : UserRow).points ∧
    (20 : ℚ) ∈ mystery_box_prizes ∧
    (open_mystery_box ⟨40, 2, some 9, 7⟩ 3 20 "B" 10 8).map
        (fun r => (r.user.points, r.user.xp, r.goal))
      = some (40 + (20 - 15), 7, if (15 : ℚ) < 20 then 3 + (20 - 15) else 3) :=
  ⟨by norm_num, by norm_num [mystery_box_prizes],
    open_mystery_box_effect ⟨40, 2, some 9, 7⟩ 3 20 "B" 10 8 (by norm_num)
      (by norm_num [mystery_box_prizes])⟩

/-- Claim C2: on a task completion the payout is
`basePoints * multiplier(streak before the update)` with the multiplier
`1.5` for streak ≥ 7, `1.2` for streak ≥ 3 and `1.0` otherwise, and points,
xp and `Family_Goal_Current` each grow by exactly that payout. -/
theorem complete_task_payout (u : UserRow) (g b : ℚ) (t uname : String)
    (d : ℤ) (hr : ℕ) (hb : 0 ≤ b) :
    multiplier u.streak
      = (if 7 ≤ u.streak then (3 : ℚ) / 2
         else if 3 ≤ u.streak then 6 / 5 else 1) ∧
    (complete_task u g b t uname d hr).user.points
      = u.points + b * multiplier u.streak ∧
    (complete_task u g b t uname d hr).user.xp
      = u.xp + b * multiplier u.streak ∧
    (complete_task u g b t uname d hr).goal
      = g + b * multiplier u.streak := by
  refine ⟨rfl, by simp [complete_task, update_user_stats], ?_, ?_⟩
  · simp [complete_task, update_user_stats]
  · have hm : 0 ≤ b * multiplier u.streak :=
      mul_nonneg hb (multiplier_pos u.streak).le
    rcases hm.lt_or_eq with hlt | heq
    · simp [complete_task, update_user_stats, if_pos hlt]
    · simp [complete_task, update_user_stats, ← heq]

/-- Witness for `complete_task_payout` reproducing the spec scenario:
streak 5, basePoints 10. -/
theorem complete_task_payout_witness :
    (0 : ℚ) ≤ 10 ∧
    (multiplier (5 : ℤ)
        = (if (7 : ℤ) ≤ 5 then (3 : ℚ) / 2
           else if (3 : ℤ) ≤ 5 then 6 / 5 else 1) ∧
      (complete_task ⟨0, 5, none, 0⟩ 0 10 "T" "A" 3 9).user.points
        = 0 + 10 * multiplier 5 ∧
      (complete_task ⟨0, 5, none, 0⟩ 0 10 "T" "A" 3 9).user.xp
        = 0 + 10 * multiplier 5 ∧
      (complete_task ⟨0, 5, none, 0⟩ 0 10 "T" "A" 3 9).goal
        = 0 + 10 * multiplier 5) :=
  ⟨by norm_num, complete_task_payout ⟨0, 5, none, 0⟩ 0 10 "T" "A" 3 9
    (by norm_num)⟩

/-- Claim C6: on a positive-payout task completion, the streak is unchanged
when today equals `lastActiveDate`, increments when today is exactly one day
later, resets to 1 otherwise (gap of two or more days, or unset), and
`lastActiveDate` is set to today. -/
theorem complete_task_streak_update (u : UserRow) (g b : ℚ)
    (t uname : String) (d : ℤ) (hr : ℕ)
    (hpos : 0 < b * multiplier u.streak) :
    (complete_task u g b t uname d hr).user.lastActive = some d ∧
    (u.lastActive = some d →
      (complete_task u g b t uname d hr).user.streak = u.streak) ∧
    (u.lastActive = some (d - 1) →
      (complete_task u g b t uname d hr).user.streak = u.streak + 1) ∧
    (u.lastActive ≠ some d → u.lastActive ≠ some (d - 1) →
      (complete_task u g b t uname d hr).user.streak = 1) := by
  refine ⟨?_, ?_, ?_, ?_⟩
  · simp [complete_task, update_user_stats, if_pos hpos]
  · intro h
    simp [complete_task, update_user_stats, if_pos hpos, h]
  · intro h
    have hne : some (d - 1) ≠ some d := by
      simp only [ne_eq, Option.some.injEq]
      omega
    simp [complete_task, update_user_stats, if_pos hpos, h, hne]
  · intro h1 h2
    simp [complete_task, update_user_stats, if_pos hpos, h1, h2]

/-- Witness for `complete_task_streak_update`: streak 4, last active one day
before today. -/
theorem complete_task_streak_update_witness :
    (0 : ℚ) < 10 * multiplier (4 : ℤ) ∧
    (complete_task ⟨0, 4, some 6, 0⟩ 0 10 "T" "A" 7 9).user.lastActive
      = some 7 ∧
    (complete_task ⟨0, 4, some 6, 0⟩ 0 10 "T" "A" 7 9).user.streak = 4 + 1 :=
  ⟨by norm_num [multiplier],
    (complete_task_streak_update ⟨0, 4, some 6, 0⟩ 0 10 "T" "A" 7 9
      (by norm_num [multiplier])).1,
    (complete_task_streak_update ⟨0, 4, some 6, 0⟩ 0 10 "T" "A" 7 9
      (by norm_num [multiplier])).2.2.1 rfl⟩

/-- Claim C10: every balance update with `xp_change ≤ 0` — in particular
every reward redemption and every mystery-box open, which pass
`xp_change = 0` — leaves the user's streak and lastActiveDate unchanged. -/
theorem nonpositive_xp_change_frame :
    (∀ (u : UserRow) (g pc xc : ℚ) (d : ℤ), xc ≤ 0 →
      (update_user_stats u g pc xc d).1.streak = u.streak ∧
      (update_user_stats u g pc xc d).1.lastActive = u.lastActive) ∧
    (∀ (u : UserRow) (g prize : ℚ) (uname : String) (d : ℤ) (hr : ℕ)
        (r : OpResult), open_mystery_box u g prize uname d hr = some r →
      r.user.streak = u.streak ∧ r.user.lastActive = u.lastActive) ∧
    (∀ (u : UserRow) (g c : ℚ) (rt uname : String) (d : ℤ) (hr : ℕ)
        (r : OpResult), redeem_reward u g c rt uname d hr = some r →
      r.user.streak = u.streak ∧ r.user.lastActive = u.lastActive) := by
  refine ⟨?_, ?_, ?_⟩
  · intro u g pc xc d hxc
    constructor <;> simp [update_user_stats, not_lt.mpr hxc]
  · intro u g prize uname d hr r h
    rw [open_mystery_box] at h
    split at h
    · exact absurd h (by simp)
    · rw [Option.some.injEq] at h
      subst h
      constructor <;> simp [update_user_stats]
  · intro u g c rt uname d hr r h
    rw [redeem_reward] at h
    split at h
    · exact absurd h (by simp)
    · rw [Option.some.injEq] at h
      subst h
      constructor <;> simp [update_user_stats]

/-- Witness for `nonpositive_xp_change_frame`: a balance update with
`xp_change = -3` keeps streak 4 and last-active day 7. -/
theorem nonpositive_xp_change_frame_witness :
    (-3 : ℚ) ≤ 0 ∧
    (update_user_stats ⟨50, 4, some 7, 9⟩ 2 (-3) (-3) 8).1.streak = 4 ∧
    (update_user_stats ⟨50, 4, some 7, 9⟩ 2 (-3) (-3) 8).1.lastActive
      = some 7 :=
  ⟨by norm_num,
    (nonpositive_xp_change_frame.1 ⟨50, 4, some 7, 9⟩ 2 (-3) (-3) 8
      (by norm_num)).1,
    (nonpositive_xp_change_frame.1 ⟨50, 4, some 7, 9⟩ 2 (-3) (-3) 8
      (by norm_num)).2⟩

/-- Claim C4, counterexample: a Reward history entry (not a QuestComplete
one) for the same user and the same title, dated today, already hides a
Daily task, so "hidden exactly when a QuestComplete entry exists" fails:
the history below contains no QuestComplete entry at all. -/
theorem daily_dedup_action_counterexample :
    check_if_task_done_today "Walk Dog" "A"
      [⟨some 0, 10, "A", "Reward", "Walk Dog", some (-30)⟩] "Daily" 0 9
      = true ∧
    (⟨some 0, 10, "A", "Reward", "Walk Dog", some (-30)⟩ : HistoryRow).action
      = "Reward" ∧
    "Reward" ≠ "Quest Complete" := by
  refine ⟨?_, rfl, by decide⟩
  simp [check_if_task_done_today, matches_today]

/-- Claim C4, amended: an Active Daily task is hidden from a user exactly
when History contains an entry of any actionType for that (user, task.title)
whose timestamp parses to today's calendar date; it is shown again on a day
on which no such entry is dated. -/
theorem daily_dedup_characterization (taskTitle usr : String)
    (h : List HistoryRow) (d : ℤ) (hr : ℕ) :
    (check_if_task_done_today taskTitle usr h "Daily" d hr = true ↔
      ∃ r ∈ h, r.user = usr ∧ r.item = taskTitle ∧ r.day = some d) ∧
    (∀ d' : ℤ, (∀ r ∈ h, r.day ≠ some d') →
      check_if_task_done_today taskTitle usr h "Daily" d' hr = false) := by
  constructor
  · simp [check_if_task_done_today, List.countP_pos_iff, matches_today]
  · intro d' hd'
    simp only [check_if_task_done_today, if_true, if_pos rfl,
      decide_eq_false_iff_not, not_lt, Nat.le_zero, List.countP_eq_zero,
      matches_today, decide_eq_true_eq]
    intro r hrmem hc
    exact absurd hc.2.2 (hd' r hrmem)

/-- Witness for `daily_dedup_characterization`: with a single completion
entry dated day 3, the task is hidden on day 3 and shown again on day 4. -/
theorem daily_dedup_characterization_witness :
    (check_if_task_done_today "T" "A"
        [⟨some 3, 9, "A", "Quest Complete", "T", some 5⟩] "Daily" 3 11
        = true) ∧
    (check_if_task_done_today "T" "A"
        [⟨some 3, 9, "A", "Quest Complete", "T", some 5⟩] "Daily" 4 11
        = false) :=
  ⟨(daily_dedup_characterization "T" "A"
      [⟨some 3, 9, "A", "Quest Complete", "T", some 5⟩] 3 11).1.mpr
      ⟨⟨some 3, 9, "A", "Quest Complete", "T", some 5⟩, by simp, rfl, rfl,
        rfl⟩,
    (daily_dedup_characterization "T" "A"
      [⟨some 3, 9, "A", "Quest Complete", "T", some 5⟩] 3 11).2 4
      (by simp)⟩

/-- Claim C5: an Active TwiceDaily task is available (not hidden) if and
only if the number of matching history entries recorded today in the current
window is 0, with the AM window `hour < 16` and the PM window `hour ≥ 16`;
and a completion recorded now blocks the task for the rest of the current
window, so there is at most one completion per window (hence at most two per
calendar day). -/
theorem twice_daily_window_characterization (taskTitle usr : String)
    (h : List HistoryRow) (d : ℤ) (hr : ℕ) :
    (check_if_task_done_today taskTitle usr h "Twice Daily" d hr = false ↔
      (h.countP fun r => matches_today taskTitle usr d r &&
        (if 16 ≤ hr then decide (16 ≤ r.hour) else decide (r.hour < 16)))
        = 0) ∧
    (∀ r' : HistoryRow, r'.user = usr → r'.item = taskTitle →
      r'.day = some d → ∀ hr' : ℕ, ((16 ≤ r'.hour) ↔ (16 ≤ hr')) →
      check_if_task_done_today taskTitle usr (r' :: h) "Twice Daily" d hr'
        = true) := by
  constructor
  · by_cases hpm : 16 ≤ hr
    · simp [check_if_task_done_today, if_pos hpm, List.any_eq_false,
        List.countP_eq_zero, matches_today]
    · simp [check_if_task_done_today, if_neg hpm, List.any_eq_false,
        List.countP_eq_zero, matches_today, not_le]
  · intro r' hu hi hd hr' hw
    by_cases hpm : 16 ≤ hr'
    · simp only [check_if_task_done_today, if_neg (by decide :
        ¬("Twice Daily" : String) = "Daily"), if_pos rfl, if_pos hpm]
      simp [matches_today, hu, hi, hd, hw.mpr hpm]
    · simp only [check_if_task_done_today, if_neg (by decide :
        ¬("Twice Daily" : String) = "Daily"), if_pos rfl, if_neg hpm]
      simp [matches_today, hu, hi, hd, not_le.mp fun hc => hpm (hw.mp hc)]

/-- Witness for `twice_daily_window_characterization`: an empty history
leaves the task available at hour 10, and an AM completion at hour 9 hides
it at hour 10 of the same day. -/
theorem twice_daily_window_characterization_witness :
    (check_if_task_done_today "T" "A" [] "Twice Daily" 0 10 = false) ∧
    (check_if_task_done_today "T" "A"
      [⟨some 0, 9, "A", "Quest Complete", "T", some 5⟩] "Twice Daily" 0 10
      = true) :=
  ⟨(twice_daily_window_characterization "T" "A" [] 0 10).1.mpr (by simp),
    (twice_daily_window_characterization "T" "A" [] 0 10).2
      ⟨some 0, 9, "A", "Quest Complete", "T", some 5⟩ rfl rfl rfl 10
      (by norm_num)⟩

/-- Claim C7: redemption is gated on `points ≥ cost`: with `points < cost`
the Buy button is disabled and nothing happens; with `points ≥ cost` exactly
`cost` is deducted from points, xp, streak, last-active and
`Family_Goal_Current` are unchanged, and a Reward history entry with delta
`-cost` is appended.  (Costs are nonnegative: both reward-creation forms in
the source enforce a minimum cost of 1.) -/
theorem redeem_reward_spec (u : UserRow) (g c : ℚ) (rt uname : String)
    (d : ℤ) (hr : ℕ) (hc : 0 ≤ c) :
    (u.points < c → redeem_reward u g c rt uname d hr = none) ∧
    (c ≤ u.points →
      redeem_reward u g c rt uname d hr
        = some ⟨⟨u.points - c, u.streak, u.lastActive, u.xp⟩, g,
            ⟨some d, hr, uname, "Reward", rt, some (-c)⟩⟩) := by
  constructor
  · intro hlt
    rw [redeem_reward, if_pos hlt]
  · intro hge
    rw [redeem_reward, if_neg (not_lt.mpr hge)]
    have h0 : ¬(0 : ℚ) < -c := not_lt.mpr (neg_nonpos.mpr hc)
    simp [update_user_stats, h0, sub_eq_add_neg]

/-- Witness for `redeem_reward_spec` reproducing the spec scenario:
points 100, cost 30 leaves 70 points, with xp and goal untouched. -/
theorem redeem_reward_spec_witness :
    (0 : ℚ) ≤ 30 ∧ (30 : ℚ) ≤ 100 ∧
    redeem_reward ⟨100, 2, some 4, 50⟩ 9 30 "Toy" "A" 6 11
      = some ⟨⟨70, 2, some 4, 50⟩, 9,
          ⟨some 6, 11, "A", "Reward", "Toy", some (-30)⟩⟩ := by
  refine ⟨by norm_num, by norm_num, ?_⟩
  rw [(redeem_reward_spec ⟨100, 2, some 4, 50⟩ 9 30 "Toy" "A" 6 11
    (by norm_num)).2 (by norm_num)]
  norm_num

/-- A contributing history row carries a strictly positive parsed delta. -/
lemma contributes_xp_pos {u : String} {r : HistoryRow}
    (h : contributes_xp u r = true) : 0 < r.delta.getD 0 := by
  unfold contributes_xp at h
  rcases hd : r.delta with _ | v
  · rw [hd] at h
    simp at h
  · rw [hd] at h
    simp only [Bool.and_eq_true, decide_eq_true_eq] at h
    simpa [hd] using h.2

/-- The accumulator loop of `recalculate_all_xp` computes the sum of the
parsed deltas of the contributing rows. -/
lemma user_xp_total_eq (history : List HistoryRow) (u : String) :
    user_xp_total history u
      = ((history.filter (contributes_xp u)).map
          fun r => r.delta.getD 0).sum := by
  unfold user_xp_total
  suffices haux : ∀ (l : List HistoryRow) (acc : ℚ),
      l.foldl (fun a r => if contributes_xp u r then a + r.delta.getD 0
        else a) acc
        = acc + ((l.filter (contributes_xp u)).map
            fun r => r.delta.getD 0).sum by
    rw [haux history 0, zero_add]
  intro l
  induction l with
  | nil => simp
  | cons r t ih =>
    intro acc
    by_cases hc : contributes_xp u r
    · simp [hc, ih, List.filter_cons, add_assoc]
    · simp [hc, ih, List.filter_cons]

/-- Claim C3, counterexample: with one MysteryBox history row of delta `+35`
for user A, Sync writes 35 to A's xp (the MysteryBox delta is counted), and
leaves user B — who has no positive rows — at the stored xp 7; the claimed
behaviour (QuestComplete rows only, every user overwritten with
`max 0 (sum)`) would give 0 for both. -/
theorem recalculate_all_xp_scope_counterexample :
    recalculate_all_xp
        [⟨some 0, 10, "A", "Mystery Box", "Won 50", some 35⟩]
        [("A", 0), ("B", 7)]
      = [("A", 35), ("B", 7)] ∧
    recalculate_all_xp_spec
        [⟨some 0, 10, "A", "Mystery Box", "Won 50", some 35⟩]
        [("A", 0), ("B", 7)]
      = [("A", 0), ("B", 0)] ∧
    ([("A", (35 : ℚ)), ("B", 7)] : List (String × ℚ))
      ≠ [("A", 0), ("B", 0)] := by
  refine ⟨?_, ?_, by norm_num⟩
  · norm_num [recalculate_all_xp, user_has_positive, user_xp_total,
      contributes_xp, decide_eq_true_eq]
    simp
  · norm_num [recalculate_all_xp_spec, decide_eq_true_eq]
    simp

/-- Claim C3, amended: Sync overwrites the stored xp of every user having at
least one history row with a strictly positive parsed delta (of any
actionType, so positive MysteryBox nets are counted) with
`max 0 (Σ positive deltas)` — the maximum is attained by the sum, which is
nonnegative — and leaves every other user's stored xp untouched. -/
theorem recalculate_all_xp_characterization (history : List HistoryRow)
    (users : List (String × ℚ)) :
    recalculate_all_xp history users
      = users.map fun p =>
          if (history.filter (contributes_xp p.1)).isEmpty then p
          else (p.1, max 0 (((history.filter (contributes_xp p.1)).map
            fun r => r.delta.getD 0).sum)) := by
  unfold recalculate_all_xp
  refine List.map_congr_left ?_
  intro p _
  unfold user_has_positive
  by_cases hhas : history.any (contributes_xp p.1) = true
  · rw [if_pos hhas]
    obtain ⟨a, ha, hpa⟩ := List.any_eq_true.mp hhas
    have hne : ¬history.filter (contributes_xp p.1) = [] := by
      rw [List.filter_eq_nil_iff]
      intro hall
      exact absurd hpa (by simpa using hall a ha)
    rw [if_neg (by rwa [List.isEmpty_iff])]
    have hs : 0 ≤ ((history.filter (contributes_xp p.1)).map
        fun r => r.delta.getD 0).sum := by
      apply List.sum_nonneg
      intro x hx
      obtain ⟨r, hr, rfl⟩ := List.mem_map.mp hx
      exact (contributes_xp_pos (List.mem_filter.mp hr).2).le
    rw [user_xp_total_eq, max_eq_right hs]
  · rw [if_neg hhas]
    have hfalse : history.any (contributes_xp p.1) = false := by
      simpa using hhas
    have hnil : history.filter (contributes_xp p.1) = [] := by
      rw [List.filter_eq_nil_iff]
      intro a ha
      simpa using List.any_eq_false.mp hfalse a ha
    rw [hnil]
    simp

/-- For a nonnegative real, the natural floor of the real square root is the
natural square root of the natural floor. -/
lemma nat_floor_sqrt (x : ℝ) (hx : 0 ≤ x) :
    ⌊Real.sqrt x⌋₊ = Nat.sqrt ⌊x⌋₊ := by
  rw [Nat.floor_eq_iff (Real.sqrt_nonneg x)]
  constructor
  · calc ((Nat.sqrt ⌊x⌋₊ : ℝ))
        ≤ Real.sqrt ((⌊x⌋₊ : ℕ) : ℝ) := Real.nat_sqrt_le_real_sqrt
      _ ≤ Real.sqrt x := Real.sqrt_le_sqrt (Nat.floor_le hx)
  · have h1 : x < ((⌊x⌋₊ : ℝ) + 1) := Nat.lt_floor_add_one x
    have h2 : (⌊x⌋₊ + 1 : ℕ) ≤ (Nat.sqrt ⌊x⌋₊ + 1) ^ 2 :=
      Nat.succ_le_succ_sqrt' ⌊x⌋₊
    rw [show ((Nat.sqrt ⌊x⌋₊ : ℝ) + 1) = ((Nat.sqrt ⌊x⌋₊ + 1 : ℕ) : ℝ) by
      push_cast
      ring]
    rw [Real.sqrt_lt hx (by positivity)]
    calc x < (⌊x⌋₊ : ℝ) + 1 := h1
      _ = ((⌊x⌋₊ + 1 : ℕ) : ℝ) := by push_cast; ring
      _ ≤ (((Nat.sqrt ⌊x⌋₊ + 1) ^ 2 : ℕ) : ℝ) := by exact_mod_cast h2
      _ = ((Nat.sqrt ⌊x⌋₊ + 1 : ℕ) : ℝ) ^ 2 := by push_cast; ring

/-- Claim C8: the level function is monotone non-decreasing in xp, returns
level 1 for every `xp ≤ 0`, and for `xp > 0` equals
`floor(sqrt(xp) / 2) + 1`. -/
theorem calculate_level_spec :
    (∀ a b : ℚ, a ≤ b → (calculate_level a).1 ≤ (calculate_level b).1) ∧
    (∀ xp : ℚ, xp ≤ 0 → (calculate_level xp).1 = 1) ∧
    (∀ xp : ℚ, 0 < xp →
      ((calculate_level xp).1 : ℤ) = ⌊Real.sqrt (xp : ℝ) / 2⌋ + 1) := by
  refine ⟨?_, ?_, ?_⟩
  · intro a b hab
    unfold calculate_level
    by_cases ha : a ≤ 0
    · by_cases hb : b ≤ 0
      · rw [if_pos ha, if_pos hb]
      · rw [if_pos ha, if_neg hb]
        simp
    · have hb : ¬b ≤ 0 := fun hb => ha (hab.trans hb)
      rw [if_neg ha, if_neg hb]
      exact Nat.succ_le_succ
        (Nat.div_le_div_right (Nat.sqrt_le_sqrt (Nat.floor_mono hab)))
  · intro xp hxp
    unfold calculate_level
    rw [if_pos hxp]
  · intro xp hxp
    unfold calculate_level
    rw [if_neg (not_le.mpr hxp)]
    have hx0 : (0 : ℝ) ≤ (xp : ℝ) := by exact_mod_cast hxp.le
    have h2 : ⌊Real.sqrt (xp : ℝ) / 2⌋ = (⌊Real.sqrt (xp : ℝ) / 2⌋₊ : ℤ) :=
      (Int.natCast_floor_eq_floor (by positivity)).symm
    rw [h2]
    have h3 : ⌊Real.sqrt (xp : ℝ) / 2⌋₊ = ⌊Real.sqrt (xp : ℝ)⌋₊ / 2 := by
      simpa using Nat.floor_div_nat (Real.sqrt (xp : ℝ)) 2
    rw [h3, nat_floor_sqrt _ hx0]
    have h4 : ⌊(xp : ℝ)⌋₊ = ⌊xp⌋₊ := by
      rw [← Int.floor_toNat, ← Int.floor_toNat, Rat.floor_cast]
    rw [h4]
    push_cast
    ring

/-- Witness for `calculate_level_spec` at xp = 324. -/
theorem calculate_level_spec_witness :
    (0 : ℚ) < 324 ∧
    ((calculate_level (324 : ℚ)).1 : ℤ)
      = ⌊Real.sqrt ((324 : ℚ) : ℝ) / 2⌋ + 1 :=
  ⟨by norm_num, calculate_level_spec.2.2 324 (by norm_num)⟩

/-- Claim C9, counterexample: the table has a tenth named tier.  Level 10
(xp = 324) yields the named title "Mythic 🐉" while level 11 (xp = 400)
yields "Cosmic Being 🌌"; both levels are beyond a 9-tier table, yet their
titles differ, so no single terminal fallback covers every level beyond 9
named tiers. -/
theorem title_table_size_counterexample :
    (calculate_level 324).1 = 10 ∧
    (calculate_level 400).1 = 11 ∧
    (calculate_level 324).2 = "Mythic 🐉" ∧
    (calculate_level 400).2 = "Cosmic Being 🌌" ∧
    "Mythic 🐉" ≠ "Cosmic Being 🌌" := by
  refine ⟨?_, ?_, ?_, ?_, by decide⟩
  · norm_num [calculate_level]
  · norm_num [calculate_level]
  · norm_num [calculate_level]
    rfl
  · norm_num [calculate_level]
    rfl

/-- Claim C9, amended: the title is taken from a fixed ordered table of
exactly 10 pairwise distinct named tiers indexed by level, with the single
terminal fallback "Cosmic Being 🌌" returned for every level beyond the
table. -/
theorem title_table_characterization :
    titles_table.length = 10 ∧
    titles_table.Nodup ∧
    "Cosmic Being 🌌" ∉ titles_table ∧
    (∀ xp : ℚ, 1 ≤ (calculate_level xp).1) ∧
    (∀ xp : ℚ, (calculate_level xp).1 ≤ 10 →
      (calculate_level xp).2
        = titles_table.getD ((calculate_level xp).1 - 1) "Cosmic Being 🌌") ∧
    (∀ xp : ℚ, 10 < (calculate_level xp).1 →
      (calculate_level xp).2 = "Cosmic Being 🌌") := by
  refine ⟨rfl, by decide, by decide, ?_, ?_, ?_⟩
  · intro xp
    unfold calculate_level
    split
    · rfl
    · exact Nat.succ_le_succ (Nat.zero_le _)
  · intro xp hle
    unfold calculate_level at hle ⊢
    by_cases hxp : xp ≤ 0
    · rw [if_pos hxp]
      rfl
    · rw [if_neg hxp] at hle ⊢
      simp only at hle ⊢
      generalize Nat.sqrt ⌊xp⌋₊ / 2 = k at hle ⊢
      have hk9 : k ≤ 9 := by omega
      interval_cases k <;> rfl
  · intro xp hgt
    unfold calculate_level at hgt ⊢
    by_cases hxp : xp ≤ 0
    · rw [if_pos hxp] at hgt
      omega
    · rw [if_neg hxp] at hgt ⊢
      simp only at hgt ⊢
      generalize Nat.sqrt ⌊xp⌋₊ / 2 = k at hgt ⊢
      obtain ⟨m, rfl⟩ : ∃ m, k = m + 10 := ⟨k - 10, by omega⟩
      rfl

/-- Witness for `title_table_characterization` at xp 324 (level 10, last
named tier) and xp 400 (level 11, fallback). -/
theorem title_table_characterization_witness :
    (calculate_level (324 : ℚ)).1 ≤ 10 ∧
    (calculate_level (324 : ℚ)).2
      = titles_table.getD ((calculate_level (324 : ℚ)).1 - 1)
          "Cosmic Being 🌌" ∧
    10 < (calculate_level (400 : ℚ)).1 ∧
    (calculate_level (400 : ℚ)).2 = "Cosmic Being 🌌" := by
  have h1 : (calculate_level (324 : ℚ)).1 ≤ 10 := by
    norm_num [calculate_level]
  have h2 : 10 < (calculate_level (400 : ℚ)).1 := by
    norm_num [calculate_level]
  exact ⟨h1, title_table_characterization.2.2.2.2.1 324 h1, h2,
    title_table_characterization.2.2.2.2.2 400 h2⟩
